import Mathlib

/-!
Verification of the content collection schema and validation layer of the
andarms.com repository.

The source registers two content collections, blog and project, each with a
zod object schema; every entry front-matter record is validated against its
schema at build time, defaults are applied, and unknown keys are stripped.
We embed the front-matter values, the per-field zod combinators used by the
schemas, and the two validators (in both their historical versions), and
prove the specified properties about them.
-/

namespace Andarms

/-- A front-matter value as parsed from an entry metadata block: a string,
a number, a boolean, a native date value (carried as a timestamp), an array
of values, or null. -/
inductive Value where
  | str (s : String)
  | num (n : Int)
  | bool (b : Bool)
  | date (t : Int)
  | arr (xs : List Value)
  | null
deriving Repr

/-- A raw metadata record: an ordered list of key/value pairs. -/
abbrev Record : Type := List (String × Value)

/-- The date field accepts either textual or native date form:
the embedding of the result of the combinator string-or-date. -/
inductive DateVal where
  | str (s : String)
  | date (t : Int)
deriving DecidableEq, Repr

/-- The validation error taxonomy: a required key absent, a field present
with the wrong type, or a url-checked field present but not a well-formed
absolute URL.  Each error names the offending field. -/
inductive SchemaError where
  | missingRequiredField (f : String)
  | typeMismatch (f : String)
  | malformedURL (f : String)
deriving DecidableEq, Repr

/-- First-match lookup of a key in a record. -/
def lookupKey (k : String) : Record → Option Value
  | [] => none
  | (k2, v) :: rest => if k2 = k then some v else lookupKey k rest

/-- Modelled from the spec: a well-formed absolute URL, the url string check
applied by the schema to the url and repo fields (the URL parser itself is
framework library code outside this repository).  A string is well formed
when it starts with a scheme: an ASCII letter followed by letters, digits,
plus, minus or dot, terminated by a colon. -/
def isSchemeTail : List Char → Bool
  | [] => false
  | c :: cs =>
    if c = ':' then true
    else (c.isAlphanum || c = '+' || c = '-' || c = '.') && isSchemeTail cs

/-- Modelled from the spec: see isSchemeTail. -/
def isValidURL (s : String) : Bool :=
  match s.toList with
  | [] => false
  | c :: cs => c.isAlpha && isSchemeTail cs

/-- The combinator z.string() on a required field. -/
def parseRequiredString (f : String) (r : Record) : Except SchemaError String :=
  match lookupKey f r with
  | none => .error (.missingRequiredField f)
  | some (.str s) => .ok s
  | some _ => .error (.typeMismatch f)

/-- The combinator z.string().optional(). -/
def parseOptionalString (f : String) (r : Record) : Except SchemaError (Option String) :=
  match lookupKey f r with
  | none => .ok none
  | some (.str s) => .ok (some s)
  | some _ => .error (.typeMismatch f)

/-- The combinator z.string().or(z.date()) on the required date field. -/
def parseDateField (f : String) (r : Record) : Except SchemaError DateVal :=
  match lookupKey f r with
  | none => .error (.missingRequiredField f)
  | some (.str s) => .ok (.str s)
  | some (.date t) => .ok (.date t)
  | some _ => .error (.typeMismatch f)

/-- The combinator z.string().url().optional() on the url and repo fields. -/
def parseOptionalURL (f : String) (r : Record) : Except SchemaError (Option String) :=
  match lookupKey f r with
  | none => .ok none
  | some (.str s) => if isValidURL s then .ok (some s) else .error (.malformedURL f)
  | some _ => .error (.typeMismatch f)

/-- Element check for the tags array: each element must be a string. -/
def asStrings : List Value → Option (List String)
  | [] => some []
  | .str s :: vs =>
    match asStrings vs with
    | some ss => some (s :: ss)
    | none => none
  | _ :: _ => none

/-- The combinator z.array(z.string()).default([]) on the tags field. -/
def parseTagsField (f : String) (r : Record) : Except SchemaError (List String) :=
  match lookupKey f r with
  | none => .ok []
  | some (.arr vs) =>
    match asStrings vs with
    | some ss => .ok ss
    | none => .error (.typeMismatch f)
  | some _ => .error (.typeMismatch f)

/-- The combinator z.boolean().default(false) on the draft field. -/
def parseDraftField (f : String) (r : Record) : Except SchemaError Bool :=
  match lookupKey f r with
  | none => .ok false
  | some (.bool b) => .ok b
  | some _ => .error (.typeMismatch f)

/-- The normalized blog entry metadata, current schema version. -/
structure BlogMeta where
  title : String
  description : Option String
  date : DateVal
  tags : List String
  project : Option String
  draft : Bool
deriving DecidableEq, Repr

/-- The normalized project entry metadata, current schema version. -/
structure ProjectMeta where
  title : String
  description : Option String
  date : DateVal
  url : Option String
  repo : Option String
  thumbnail : Option String
  tags : List String
  draft : Bool
deriving DecidableEq, Repr

/-- The normalized blog entry metadata, earlier schema version
(without the project field). -/
structure BlogMetaV1 where
  title : String
  description : Option String
  date : DateVal
  tags : List String
  draft : Bool
deriving DecidableEq, Repr

/-- The normalized project entry metadata, earlier schema version
(without the thumbnail field). -/
structure ProjectMetaV1 where
  title : String
  description : Option String
  date : DateVal
  url : Option String
  repo : Option String
  tags : List String
  draft : Bool
deriving DecidableEq, Repr

/-- The single issue, if any, contributed by one field check. -/
def errOf {a : Type} : Except SchemaError a → List SchemaError
  | .ok _ => []
  | .error e => [e]

/-- All issues raised by the blog schema on a record, in declaration order
of the schema fields (zod aggregates the issues of every key). -/
def blogIssues (r : Record) : List SchemaError :=
  errOf (parseRequiredString "title" r) ++
  errOf (parseOptionalString "description" r) ++
  errOf (parseDateField "date" r) ++
  errOf (parseTagsField "tags" r) ++
  errOf (parseOptionalString "project" r) ++
  errOf (parseDraftField "draft" r)

/-- Validation of a record against the blog collection schema
(current version): every field check must succeed, unknown keys are
stripped, defaults are applied; otherwise all issues are reported. -/
def validateBlog (r : Record) : Except (List SchemaError) BlogMeta :=
  match parseRequiredString "title" r, parseOptionalString "description" r,
      parseDateField "date" r, parseTagsField "tags" r,
      parseOptionalString "project" r, parseDraftField "draft" r with
  | .ok t, .ok de, .ok d, .ok tg, .ok pj, .ok df => .ok ⟨t, de, d, tg, pj, df⟩
  | _, _, _, _, _, _ => .error (blogIssues r)

/-- All issues raised by the project schema on a record. -/
def projectIssues (r : Record) : List SchemaError :=
  errOf (parseRequiredString "title" r) ++
  errOf (parseOptionalString "description" r) ++
  errOf (parseDateField "date" r) ++
  errOf (parseOptionalURL "url" r) ++
  errOf (parseOptionalURL "repo" r) ++
  errOf (parseOptionalString "thumbnail" r) ++
  errOf (parseTagsField "tags" r) ++
  errOf (parseDraftField "draft" r)

/-- Validation of a record against the project collection schema
(current version). -/
def validateProject (r : Record) : Except (List SchemaError) ProjectMeta :=
  match parseRequiredString "title" r, parseOptionalString "description" r,
      parseDateField "date" r, parseOptionalURL "url" r,
      parseOptionalURL "repo" r, parseOptionalString "thumbnail" r,
      parseTagsField "tags" r, parseDraftField "draft" r with
  | .ok t, .ok de, .ok d, .ok u, .ok rp, .ok th, .ok tg, .ok df =>
    .ok ⟨t, de, d, u, rp, th, tg, df⟩
  | _, _, _, _, _, _, _, _ => .error (projectIssues r)

/-- All issues raised by the earlier blog schema on a record. -/
def blogIssuesV1 (r : Record) : List SchemaError :=
  errOf (parseRequiredString "title" r) ++
  errOf (parseOptionalString "description" r) ++
  errOf (parseDateField "date" r) ++
  errOf (parseTagsField "tags" r) ++
  errOf (parseDraftField "draft" r)

/-- Validation of a record against the earlier blog schema version. -/
def validateBlogV1 (r : Record) : Except (List SchemaError) BlogMetaV1 :=
  match parseRequiredString "title" r, parseOptionalString "description" r,
      parseDateField "date" r, parseTagsField "tags" r,
      parseDraftField "draft" r with
  | .ok t, .ok de, .ok d, .ok tg, .ok df => .ok ⟨t, de, d, tg, df⟩
  | _, _, _, _, _ => .error (blogIssuesV1 r)

/-- All issues raised by the earlier project schema on a record. -/
def projectIssuesV1 (r : Record) : List SchemaError :=
  errOf (parseRequiredString "title" r) ++
  errOf (parseOptionalString "description" r) ++
  errOf (parseDateField "date" r) ++
  errOf (parseOptionalURL "url" r) ++
  errOf (parseOptionalURL "repo" r) ++
  errOf (parseTagsField "tags" r) ++
  errOf (parseDraftField "draft" r)

/-- Validation of a record against the earlier project schema version. -/
def validateProjectV1 (r : Record) : Except (List SchemaError) ProjectMetaV1 :=
  match parseRequiredString "title" r, parseOptionalString "description" r,
      parseDateField "date" r, parseOptionalURL "url" r,
      parseOptionalURL "repo" r, parseTagsField "tags" r,
      parseDraftField "draft" r with
  | .ok t, .ok de, .ok d, .ok u, .ok rp, .ok tg, .ok df =>
    .ok ⟨t, de, d, u, rp, tg, df⟩
  | _, _, _, _, _, _, _ => .error (projectIssuesV1 r)

/-- The declared keys of the blog schema, in declaration order. -/
def blogKeys : List String :=
  ["title", "description", "date", "tags", "project", "draft"]

/-- The declared keys of the project schema, in declaration order. -/
def projectKeys : List String :=
  ["title", "description", "date", "url", "repo", "thumbnail", "tags", "draft"]

/-- Serialize an optional string field back into record pairs. -/
def optField (f : String) : Option String → Record
  | none => []
  | some s => [(f, .str s)]

/-- The front-matter value of a date field. -/
def dateValue : DateVal → Value
  | .str s => .str s
  | .date t => .date t

/-- A normalized blog record written back as a metadata record with the
defaults explicitly present. -/
def blogToRecord (m : BlogMeta) : Record :=
  [("title", Value.str m.title)] ++
  optField "description" m.description ++
  [("date", dateValue m.date), ("tags", Value.arr (m.tags.map Value.str))] ++
  optField "project" m.project ++
  [("draft", Value.bool m.draft)]

/-- A normalized project record written back as a metadata record with the
defaults explicitly present. -/
def projectToRecord (m : ProjectMeta) : Record :=
  [("title", Value.str m.title)] ++
  optField "description" m.description ++
  [("date", dateValue m.date)] ++
  optField "url" m.url ++
  optField "repo" m.repo ++
  optField "thumbnail" m.thumbnail ++
  [("tags", Value.arr (m.tags.map Value.str)), ("draft", Value.bool m.draft)]

/-- The keys of a record, in order. -/
def recordKeys (r : Record) : List String := r.map (fun p => p.1)

/-- Modelled from the spec: the query surface over a registered collection.
Querying with a predicate returns the entries satisfying the predicate in
insertion (file enumeration) order; the query implementation itself is
framework code outside this repository. -/
def queryCollection (entries : List BlogMeta) (p : BlogMeta → Bool) : List BlogMeta :=
  entries.filter p

/-- A concrete blog entry used in the query scenario. -/
def mkEntry (t : String) (dr : Bool) : BlogMeta :=
  ⟨t, none, .str "2026-01-01", [], none, dr⟩

end Andarms

namespace Andarms

/-! ### Characterization of the validators -/

theorem validateBlog_ok_iff (r : Record) (m : BlogMeta) :
    validateBlog r = .ok m ↔
      parseRequiredString "title" r = .ok m.title ∧
      parseOptionalString "description" r = .ok m.description ∧
      parseDateField "date" r = .ok m.date ∧
      parseTagsField "tags" r = .ok m.tags ∧
      parseOptionalString "project" r = .ok m.project ∧
      parseDraftField "draft" r = .ok m.draft := by
  constructor
  · intro h
    unfold validateBlog at h
    split at h
    · cases h
      exact ⟨by assumption, by assumption, by assumption, by assumption,
        by assumption, by assumption⟩
    · cases h
  · rintro ⟨h1, h2, h3, h4, h5, h6⟩
    unfold validateBlog
    rw [h1, h2, h3, h4, h5, h6]

theorem validateProject_ok_iff (r : Record) (m : ProjectMeta) :
    validateProject r = .ok m ↔
      parseRequiredString "title" r = .ok m.title ∧
      parseOptionalString "description" r = .ok m.description ∧
      parseDateField "date" r = .ok m.date ∧
      parseOptionalURL "url" r = .ok m.url ∧
      parseOptionalURL "repo" r = .ok m.repo ∧
      parseOptionalString "thumbnail" r = .ok m.thumbnail ∧
      parseTagsField "tags" r = .ok m.tags ∧
      parseDraftField "draft" r = .ok m.draft := by
  constructor
  · intro h
    unfold validateProject at h
    split at h
    · cases h
      exact ⟨by assumption, by assumption, by assumption, by assumption,
        by assumption, by assumption, by assumption, by assumption⟩
    · cases h
  · rintro ⟨h1, h2, h3, h4, h5, h6, h7, h8⟩
    unfold validateProject
    rw [h1, h2, h3, h4, h5, h6, h7, h8]

theorem validateBlogV1_ok_iff (r : Record) (m : BlogMetaV1) :
    validateBlogV1 r = .ok m ↔
      parseRequiredString "title" r = .ok m.title ∧
      parseOptionalString "description" r = .ok m.description ∧
      parseDateField "date" r = .ok m.date ∧
      parseTagsField "tags" r = .ok m.tags ∧
      parseDraftField "draft" r = .ok m.draft := by
  constructor
  · intro h
    unfold validateBlogV1 at h
    split at h
    · cases h
      exact ⟨by assumption, by assumption, by assumption, by assumption,
        by assumption⟩
    · cases h
  · rintro ⟨h1, h2, h3, h4, h5⟩
    unfold validateBlogV1
    rw [h1, h2, h3, h4, h5]

theorem validateProjectV1_ok_iff (r : Record) (m : ProjectMetaV1) :
    validateProjectV1 r = .ok m ↔
      parseRequiredString "title" r = .ok m.title ∧
      parseOptionalString "description" r = .ok m.description ∧
      parseDateField "date" r = .ok m.date ∧
      parseOptionalURL "url" r = .ok m.url ∧
      parseOptionalURL "repo" r = .ok m.repo ∧
      parseTagsField "tags" r = .ok m.tags ∧
      parseDraftField "draft" r = .ok m.draft := by
  constructor
  · intro h
    unfold validateProjectV1 at h
    split at h
    · cases h
      exact ⟨by assumption, by assumption, by assumption, by assumption,
        by assumption, by assumption, by assumption⟩
    · cases h
  · rintro ⟨h1, h2, h3, h4, h5, h6, h7⟩
    unfold validateProjectV1
    rw [h1, h2, h3, h4, h5, h6, h7]

theorem validateBlog_error_eq (r : Record) (es : List SchemaError)
    (h : validateBlog r = .error es) : es = blogIssues r := by
  unfold validateBlog at h
  split at h
  · cases h
  · cases h; rfl

theorem validateProject_error_eq (r : Record) (es : List SchemaError)
    (h : validateProject r = .error es) : es = projectIssues r := by
  unfold validateProject at h
  split at h
  · cases h
  · cases h; rfl

theorem validateBlog_error_of_not_ok (r : Record)
    (h : ∀ m, validateBlog r ≠ .ok m) :
    validateBlog r = .error (blogIssues r) := by
  cases hv : validateBlog r with
  | ok m => exact absurd hv (h m)
  | error es => rw [validateBlog_error_eq r es hv]

theorem validateProject_error_of_not_ok (r : Record)
    (h : ∀ m, validateProject r ≠ .ok m) :
    validateProject r = .error (projectIssues r) := by
  cases hv : validateProject r with
  | ok m => exact absurd hv (h m)
  | error es => rw [validateProject_error_eq r es hv]

end Andarms

namespace Andarms

/-! ### Field checks depend only on the value at their key -/

theorem parseRequiredString_congr (f : String) (r r2 : Record)
    (h : lookupKey f r2 = lookupKey f r) :
    parseRequiredString f r2 = parseRequiredString f r := by
  unfold parseRequiredString; rw [h]

theorem parseOptionalString_congr (f : String) (r r2 : Record)
    (h : lookupKey f r2 = lookupKey f r) :
    parseOptionalString f r2 = parseOptionalString f r := by
  unfold parseOptionalString; rw [h]

theorem parseDateField_congr (f : String) (r r2 : Record)
    (h : lookupKey f r2 = lookupKey f r) :
    parseDateField f r2 = parseDateField f r := by
  unfold parseDateField; rw [h]

theorem parseOptionalURL_congr (f : String) (r r2 : Record)
    (h : lookupKey f r2 = lookupKey f r) :
    parseOptionalURL f r2 = parseOptionalURL f r := by
  unfold parseOptionalURL; rw [h]

theorem parseTagsField_congr (f : String) (r r2 : Record)
    (h : lookupKey f r2 = lookupKey f r) :
    parseTagsField f r2 = parseTagsField f r := by
  unfold parseTagsField; rw [h]

theorem parseDraftField_congr (f : String) (r r2 : Record)
    (h : lookupKey f r2 = lookupKey f r) :
    parseDraftField f r2 = parseDraftField f r := by
  unfold parseDraftField; rw [h]

theorem validateBlog_congr (r r2 : Record)
    (h : ∀ k ∈ blogKeys, lookupKey k r2 = lookupKey k r) :
    validateBlog r2 = validateBlog r := by
  have ht := h "title" (by simp [blogKeys])
  have hde := h "description" (by simp [blogKeys])
  have hd := h "date" (by simp [blogKeys])
  have htg := h "tags" (by simp [blogKeys])
  have hpj := h "project" (by simp [blogKeys])
  have hdf := h "draft" (by simp [blogKeys])
  unfold validateBlog blogIssues
  rw [parseRequiredString_congr _ _ _ ht, parseOptionalString_congr _ _ _ hde,
    parseDateField_congr _ _ _ hd, parseTagsField_congr _ _ _ htg,
    parseOptionalString_congr _ _ _ hpj, parseDraftField_congr _ _ _ hdf]

theorem validateProject_congr (r r2 : Record)
    (h : ∀ k ∈ projectKeys, lookupKey k r2 = lookupKey k r) :
    validateProject r2 = validateProject r := by
  have ht := h "title" (by simp [projectKeys])
  have hde := h "description" (by simp [projectKeys])
  have hd := h "date" (by simp [projectKeys])
  have hu := h "url" (by simp [projectKeys])
  have hrp := h "repo" (by simp [projectKeys])
  have hth := h "thumbnail" (by simp [projectKeys])
  have htg := h "tags" (by simp [projectKeys])
  have hdf := h "draft" (by simp [projectKeys])
  unfold validateProject projectIssues
  rw [parseRequiredString_congr _ _ _ ht, parseOptionalString_congr _ _ _ hde,
    parseDateField_congr _ _ _ hd, parseOptionalURL_congr _ _ _ hu,
    parseOptionalURL_congr _ _ _ hrp, parseOptionalString_congr _ _ _ hth,
    parseTagsField_congr _ _ _ htg, parseDraftField_congr _ _ _ hdf]

/-! ### Lookup over appended records -/

theorem lookupKey_eq_none (k : String) (l : Record)
    (h : ∀ p ∈ l, p.1 ≠ k) : lookupKey k l = none := by
  induction l with
  | nil => rfl
  | cons p rest ih =>
    obtain ⟨k2, v⟩ := p
    simp only [lookupKey]
    rw [if_neg (h (k2, v) (List.mem_cons_self _ _))]
    exact ih fun q hq => h q (List.mem_cons_of_mem _ hq)

theorem lookupKey_append (k : String) (r extra : Record)
    (h : ∀ p ∈ extra, p.1 ≠ k) :
    lookupKey k (r ++ extra) = lookupKey k r := by
  induction r with
  | nil => simpa using lookupKey_eq_none k extra h
  | cons p rest ih =>
    obtain ⟨k2, v⟩ := p
    simp only [List.cons_append, lookupKey]
    by_cases hk : k2 = k
    · rw [if_pos hk, if_pos hk]
    · rw [if_neg hk, if_neg hk]; exact ih

end Andarms

namespace Andarms

/-! ### Lookups on a written-back normalized record -/

theorem lookupKey_blogToRecord (m : BlogMeta) :
    lookupKey "title" (blogToRecord m) = some (.str m.title) ∧
    lookupKey "description" (blogToRecord m) = m.description.map Value.str ∧
    lookupKey "date" (blogToRecord m) = some (dateValue m.date) ∧
    lookupKey "tags" (blogToRecord m) = some (.arr (m.tags.map Value.str)) ∧
    lookupKey "project" (blogToRecord m) = m.project.map Value.str ∧
    lookupKey "draft" (blogToRecord m) = some (.bool m.draft) := by
  obtain ⟨t, de, d, tg, pj, df⟩ := m
  cases de <;> cases pj <;>
    simp [blogToRecord, optField, lookupKey]

theorem lookupKey_projectToRecord (m : ProjectMeta) :
    lookupKey "title" (projectToRecord m) = some (.str m.title) ∧
    lookupKey "description" (projectToRecord m) = m.description.map Value.str ∧
    lookupKey "date" (projectToRecord m) = some (dateValue m.date) ∧
    lookupKey "url" (projectToRecord m) = m.url.map Value.str ∧
    lookupKey "repo" (projectToRecord m) = m.repo.map Value.str ∧
    lookupKey "thumbnail" (projectToRecord m) = m.thumbnail.map Value.str ∧
    lookupKey "tags" (projectToRecord m) = some (.arr (m.tags.map Value.str)) ∧
    lookupKey "draft" (projectToRecord m) = some (.bool m.draft) := by
  obtain ⟨t, de, d, u, rp, th, tg, df⟩ := m
  cases de <;> cases u <;> cases rp <;> cases th <;>
    simp [projectToRecord, optField, lookupKey]

theorem asStrings_map_str (ss : List String) :
    asStrings (ss.map Value.str) = some ss := by
  induction ss with
  | nil => rfl
  | cons s rest ih => simp [asStrings, ih]

theorem parseOptionalURL_ok_valid (f : String) (r : Record) (u : String)
    (h : parseOptionalURL f r = .ok (some u)) : isValidURL u = true := by
  unfold parseOptionalURL at h
  split at h
  · exact Option.noConfusion (Except.ok.inj h)
  · split at h
    · have hs := Option.some.inj (Except.ok.inj h)
      subst hs
      assumption
    · exact Except.noConfusion h
  · exact Except.noConfusion h

/-! ### Round-trip of the validators on written-back records -/

theorem roundtripBlog (m : BlogMeta) :
    validateBlog (blogToRecord m) = .ok m := by
  obtain ⟨hT, hDe, hD, hTg, hPj, hDf⟩ := lookupKey_blogToRecord m
  rw [validateBlog_ok_iff]
  refine ⟨?_, ?_, ?_, ?_, ?_, ?_⟩
  · simp [parseRequiredString, hT]
  · cases hde : m.description <;> simp [parseOptionalString, hDe, hde]
  · cases hd : m.date <;> simp [parseDateField, hD, hd, dateValue]
  · simp [parseTagsField, hTg, asStrings_map_str]
  · cases hpj : m.project <;> simp [parseOptionalString, hPj, hpj]
  · simp [parseDraftField, hDf]

theorem roundtripProject (m : ProjectMeta)
    (hu : ∀ u, m.url = some u → isValidURL u = true)
    (hrp : ∀ u, m.repo = some u → isValidURL u = true) :
    validateProject (projectToRecord m) = .ok m := by
  obtain ⟨hT, hDe, hD, hU, hR, hTh, hTg, hDf⟩ := lookupKey_projectToRecord m
  rw [validateProject_ok_iff]
  refine ⟨?_, ?_, ?_, ?_, ?_, ?_, ?_, ?_⟩
  · simp [parseRequiredString, hT]
  · cases hde : m.description <;> simp [parseOptionalString, hDe, hde]
  · cases hd : m.date <;> simp [parseDateField, hD, hd, dateValue]
  · cases hum : m.url with
    | none => simp [parseOptionalURL, hU, hum]
    | some u => simp [parseOptionalURL, hU, hum, hu u hum]
  · cases hrm : m.repo with
    | none => simp [parseOptionalURL, hR, hrm]
    | some u => simp [parseOptionalURL, hR, hrm, hrp u hrm]
  · cases hth : m.thumbnail <;> simp [parseOptionalString, hTh, hth]
  · simp [parseTagsField, hTg, asStrings_map_str]
  · simp [parseDraftField, hDf]

end Andarms

namespace Andarms

/-! ### A failing field check fails the whole validation -/

theorem validateBlog_title_error (r : Record) (e : SchemaError)
    (h : parseRequiredString "title" r = .error e) :
    validateBlog r = .error (blogIssues r) ∧ e ∈ blogIssues r := by
  constructor
  · apply validateBlog_error_of_not_ok
    intro m hm
    have h1 := ((validateBlog_ok_iff r m).mp hm).1
    rw [h] at h1
    exact Except.noConfusion h1
  · simp [blogIssues, h, errOf]

theorem validateBlog_date_error (r : Record) (e : SchemaError)
    (h : parseDateField "date" r = .error e) :
    validateBlog r = .error (blogIssues r) ∧ e ∈ blogIssues r := by
  constructor
  · apply validateBlog_error_of_not_ok
    intro m hm
    have h1 := ((validateBlog_ok_iff r m).mp hm).2.2.1
    rw [h] at h1
    exact Except.noConfusion h1
  · simp [blogIssues, h, errOf]

theorem validateProject_title_error (r : Record) (e : SchemaError)
    (h : parseRequiredString "title" r = .error e) :
    validateProject r = .error (projectIssues r) ∧ e ∈ projectIssues r := by
  constructor
  · apply validateProject_error_of_not_ok
    intro m hm
    have h1 := ((validateProject_ok_iff r m).mp hm).1
    rw [h] at h1
    exact Except.noConfusion h1
  · simp [projectIssues, h, errOf]

theorem validateProject_date_error (r : Record) (e : SchemaError)
    (h : parseDateField "date" r = .error e) :
    validateProject r = .error (projectIssues r) ∧ e ∈ projectIssues r := by
  constructor
  · apply validateProject_error_of_not_ok
    intro m hm
    have h1 := ((validateProject_ok_iff r m).mp hm).2.2.1
    rw [h] at h1
    exact Except.noConfusion h1
  · simp [projectIssues, h, errOf]

theorem validateProject_url_error (r : Record) (e : SchemaError)
    (h : parseOptionalURL "url" r = .error e) :
    validateProject r = .error (projectIssues r) ∧ e ∈ projectIssues r := by
  constructor
  · apply validateProject_error_of_not_ok
    intro m hm
    have h1 := ((validateProject_ok_iff r m).mp hm).2.2.2.1
    rw [h] at h1
    exact Except.noConfusion h1
  · simp [projectIssues, h, errOf]

theorem validateProject_repo_error (r : Record) (e : SchemaError)
    (h : parseOptionalURL "repo" r = .error e) :
    validateProject r = .error (projectIssues r) ∧ e ∈ projectIssues r := by
  constructor
  · apply validateProject_error_of_not_ok
    intro m hm
    have h1 := ((validateProject_ok_iff r m).mp hm).2.2.2.2.1
    rw [h] at h1
    exact Except.noConfusion h1
  · simp [projectIssues, h, errOf]

end Andarms

namespace Andarms

/-! ### The claims -/

/-- C1: validating the blog input with title Hello and date 2026-01-15
succeeds and returns exactly the normalized record with that title and
date, empty tags, draft false and no description. -/
theorem claimC1_blog_scenarioA :
    validateBlog [("title", Value.str "Hello"), ("date", Value.str "2026-01-15")] =
      .ok ⟨"Hello", none, DateVal.str "2026-01-15", [], none, false⟩ := rfl

/-- C2: any record missing the title key or the date key fails validation
under both the blog and the project schema with a missing-required-field
error naming that field, and no normalized record is produced. -/
theorem claimC2_missing_required (r : Record)
    (h : lookupKey "title" r = none ∨ lookupKey "date" r = none) :
    (validateBlog r = .error (blogIssues r) ∧
      (SchemaError.missingRequiredField "title" ∈ blogIssues r ∨
       SchemaError.missingRequiredField "date" ∈ blogIssues r)) ∧
    (validateProject r = .error (projectIssues r) ∧
      (SchemaError.missingRequiredField "title" ∈ projectIssues r ∨
       SchemaError.missingRequiredField "date" ∈ projectIssues r)) := by
  rcases h with h | h
  · have hp : parseRequiredString "title" r = .error (.missingRequiredField "title") := by
      unfold parseRequiredString; rw [h]
    obtain ⟨hb, hbm⟩ := validateBlog_title_error r _ hp
    obtain ⟨hq, hqm⟩ := validateProject_title_error r _ hp
    exact ⟨⟨hb, Or.inl hbm⟩, ⟨hq, Or.inl hqm⟩⟩
  · have hp : parseDateField "date" r = .error (.missingRequiredField "date") := by
      unfold parseDateField; rw [h]
    obtain ⟨hb, hbm⟩ := validateBlog_date_error r _ hp
    obtain ⟨hq, hqm⟩ := validateProject_date_error r _ hp
    exact ⟨⟨hb, Or.inr hbm⟩, ⟨hq, Or.inr hqm⟩⟩

/-- Witness for C2 at a concrete record carrying only a date. -/
theorem claimC2_witness :
    (validateBlog [("date", Value.str "2026-01-15")] =
        .error (blogIssues [("date", Value.str "2026-01-15")]) ∧
      (SchemaError.missingRequiredField "title" ∈ blogIssues [("date", Value.str "2026-01-15")] ∨
       SchemaError.missingRequiredField "date" ∈ blogIssues [("date", Value.str "2026-01-15")])) ∧
    (validateProject [("date", Value.str "2026-01-15")] =
        .error (projectIssues [("date", Value.str "2026-01-15")]) ∧
      (SchemaError.missingRequiredField "title" ∈ projectIssues [("date", Value.str "2026-01-15")] ∨
       SchemaError.missingRequiredField "date" ∈ projectIssues [("date", Value.str "2026-01-15")])) :=
  claimC2_missing_required _ (Or.inl rfl)

/-- C3: a project record whose url or repo key holds a string that is not a
well-formed absolute URL fails validation with a malformed-URL error naming
that field; in particular the record with title X, date 2026-01-15 and repo
not-a-url fails with exactly the malformed-URL error on repo. -/
theorem claimC3_malformed_url :
    (∀ (r : Record) (s : String), lookupKey "url" r = some (Value.str s) →
      isValidURL s = false →
      validateProject r = .error (projectIssues r) ∧
        SchemaError.malformedURL "url" ∈ projectIssues r) ∧
    (∀ (r : Record) (s : String), lookupKey "repo" r = some (Value.str s) →
      isValidURL s = false →
      validateProject r = .error (projectIssues r) ∧
        SchemaError.malformedURL "repo" ∈ projectIssues r) ∧
    validateProject
        [("title", Value.str "X"), ("date", Value.str "2026-01-15"),
         ("repo", Value.str "not-a-url")] =
      .error [SchemaError.malformedURL "repo"] := by
  refine ⟨?_, ?_, rfl⟩
  · intro r s hl hv
    have hp : parseOptionalURL "url" r = .error (.malformedURL "url") := by
      simp [parseOptionalURL, hl, hv]
    exact validateProject_url_error r _ hp
  · intro r s hl hv
    have hp : parseOptionalURL "repo" r = .error (.malformedURL "repo") := by
      simp [parseOptionalURL, hl, hv]
    exact validateProject_repo_error r _ hp

/-- Witness for C3 at a concrete record with an invalid repo string. -/
theorem claimC3_witness :
    validateProject [("repo", Value.str "not-a-url")] =
        .error (projectIssues [("repo", Value.str "not-a-url")]) ∧
      SchemaError.malformedURL "repo" ∈ projectIssues [("repo", Value.str "not-a-url")] :=
  claimC3_malformed_url.2.1 _ "not-a-url" rfl rfl

/-- C4: on every accepted record, an omitted tags key normalizes to the
empty list and an omitted draft key normalizes to false, for both the blog
and the project schema. -/
theorem claimC4_defaults :
    (∀ (r : Record) (m : BlogMeta), validateBlog r = .ok m →
      (lookupKey "tags" r = none → m.tags = []) ∧
      (lookupKey "draft" r = none → m.draft = false)) ∧
    (∀ (r : Record) (m : ProjectMeta), validateProject r = .ok m →
      (lookupKey "tags" r = none → m.tags = []) ∧
      (lookupKey "draft" r = none → m.draft = false)) := by
  constructor
  · intro r m hm
    obtain ⟨-, -, -, h4, -, h6⟩ := (validateBlog_ok_iff r m).mp hm
    constructor
    · intro hl
      have h4b : parseTagsField "tags" r = .ok [] := by simp [parseTagsField, hl]
      exact (Except.ok.inj (h4b.symm.trans h4)).symm
    · intro hl
      have h6b : parseDraftField "draft" r = .ok false := by simp [parseDraftField, hl]
      exact (Except.ok.inj (h6b.symm.trans h6)).symm
  · intro r m hm
    obtain ⟨-, -, -, -, -, -, h7, h8⟩ := (validateProject_ok_iff r m).mp hm
    constructor
    · intro hl
      have h7b : parseTagsField "tags" r = .ok [] := by simp [parseTagsField, hl]
      exact (Except.ok.inj (h7b.symm.trans h7)).symm
    · intro hl
      have h8b : parseDraftField "draft" r = .ok false := by simp [parseDraftField, hl]
      exact (Except.ok.inj (h8b.symm.trans h8)).symm

/-- Witness for C4 at a concrete record with tags and draft omitted. -/
theorem claimC4_witness :
    (⟨"a", none, .str "d", [], none, false⟩ : BlogMeta).tags = [] ∧
    (⟨"a", none, .str "d", [], none, false⟩ : BlogMeta).draft = false := by
  have h := claimC4_defaults.1 [("title", Value.str "a"), ("date", Value.str "d")]
    ⟨"a", none, .str "d", [], none, false⟩ rfl
  exact ⟨h.1 rfl, h.2 rfl⟩

/-- C5: the date field is required and accepted in either textual or native
date form; a value of any other type is rejected with a type mismatch, and
a failing date check fails the whole validation under both schemas. -/
theorem claimC5_date_forms (r : Record) :
    (∀ s, lookupKey "date" r = some (Value.str s) →
      parseDateField "date" r = .ok (DateVal.str s)) ∧
    (∀ t, lookupKey "date" r = some (Value.date t) →
      parseDateField "date" r = .ok (DateVal.date t)) ∧
    (lookupKey "date" r = none →
      parseDateField "date" r = .error (.missingRequiredField "date")) ∧
    (∀ v, lookupKey "date" r = some v → (∀ s, v ≠ Value.str s) →
      (∀ t, v ≠ Value.date t) →
      parseDateField "date" r = .error (.typeMismatch "date")) ∧
    (∀ e, parseDateField "date" r = .error e →
      (∀ m, validateBlog r ≠ .ok m) ∧ (∀ m2, validateProject r ≠ .ok m2)) := by
  refine ⟨?_, ?_, ?_, ?_, ?_⟩
  · intro s h; simp [parseDateField, h]
  · intro t h; simp [parseDateField, h]
  · intro h; simp [parseDateField, h]
  · intro v h hs ht
    cases v with
    | str s => exact absurd rfl (hs s)
    | date t => exact absurd rfl (ht t)
    | num n => simp [parseDateField, h]
    | bool b => simp [parseDateField, h]
    | arr xs => simp [parseDateField, h]
    | null => simp [parseDateField, h]
  · intro e he
    constructor
    · intro m hm
      have h1 := ((validateBlog_ok_iff r m).mp hm).2.2.1
      rw [he] at h1
      exact Except.noConfusion h1
    · intro m hm
      have h1 := ((validateProject_ok_iff r m).mp hm).2.2.1
      rw [he] at h1
      exact Except.noConfusion h1

/-- Witness for C5 at a concrete record with a textual date. -/
theorem claimC5_witness :
    parseDateField "date" [("date", Value.str "2026-01-15")] =
      .ok (DateVal.str "2026-01-15") :=
  (claimC5_date_forms _).1 "2026-01-15" rfl

/-- C6: validation is idempotent: re-validating an accepted record's
normalized output, written back with defaults explicitly present, succeeds
and returns that same normalized record, for both schemas. -/
theorem claimC6_idempotent :
    (∀ (r : Record) (m : BlogMeta), validateBlog r = .ok m →
      validateBlog (blogToRecord m) = .ok m) ∧
    (∀ (r : Record) (m : ProjectMeta), validateProject r = .ok m →
      validateProject (projectToRecord m) = .ok m) := by
  constructor
  · intro r m _
    exact roundtripBlog m
  · intro r m hm
    obtain ⟨-, -, -, h4, h5, -, -, -⟩ := (validateProject_ok_iff r m).mp hm
    apply roundtripProject
    · intro u hu
      rw [hu] at h4
      exact parseOptionalURL_ok_valid _ _ _ h4
    · intro u hu
      rw [hu] at h5
      exact parseOptionalURL_ok_valid _ _ _ h5

/-- Witness for C6 at a concrete accepted blog record. -/
theorem claimC6_witness :
    validateBlog (blogToRecord ⟨"a", none, .str "d", [], none, false⟩) =
      .ok ⟨"a", none, .str "d", [], none, false⟩ :=
  claimC6_idempotent.1 [("title", Value.str "a"), ("date", Value.str "d")] _ rfl

/-- C7: unknown extra keys never cause a validation error: appending pairs
whose keys are outside the declared schema keys leaves an accepted record
accepted with the same normalized output, for both schemas. -/
theorem claimC7_extra_keys :
    (∀ (r extra : Record) (m : BlogMeta),
      (∀ p ∈ extra, p.1 ∉ blogKeys) → validateBlog r = .ok m →
      validateBlog (r ++ extra) = .ok m) ∧
    (∀ (r extra : Record) (m : ProjectMeta),
      (∀ p ∈ extra, p.1 ∉ projectKeys) → validateProject r = .ok m →
      validateProject (r ++ extra) = .ok m) := by
  constructor
  · intro r extra m hext hm
    rw [validateBlog_congr r (r ++ extra)
      (fun k hk => lookupKey_append k r extra
        (fun p hp hpk => hext p hp (by rw [hpk]; exact hk)))]
    exact hm
  · intro r extra m hext hm
    rw [validateProject_congr r (r ++ extra)
      (fun k hk => lookupKey_append k r extra
        (fun p hp hpk => hext p hp (by rw [hpk]; exact hk)))]
    exact hm

/-- Witness for C7 at a concrete record extended with an unknown key. -/
theorem claimC7_witness :
    validateBlog ([("title", Value.str "a"), ("date", Value.str "d")] ++
        [("extra", Value.num 1)]) =
      .ok ⟨"a", none, .str "d", [], none, false⟩ :=
  claimC7_extra_keys.1 _ _ _ (by simp [blogKeys]) rfl

/-- C8: querying a collection with a predicate returns exactly the entries
satisfying the predicate as a sublist, hence in original enumeration order;
on five entries of which two are drafts, the non-draft query returns
exactly the three non-draft entries in order. -/
theorem claimC8_query :
    (∀ (l : List BlogMeta) (p : BlogMeta → Bool),
      (∀ e, e ∈ queryCollection l p ↔ e ∈ l ∧ p e = true) ∧
      (queryCollection l p).Sublist l) ∧
    queryCollection
        [mkEntry "A" false, mkEntry "B" true, mkEntry "C" false,
         mkEntry "D" true, mkEntry "E" false]
        (fun e => e.draft == false) =
      [mkEntry "A" false, mkEntry "C" false, mkEntry "E" false] := by
  refine ⟨fun l p => ⟨fun e => ?_, ?_⟩, rfl⟩
  · simp [queryCollection, List.mem_filter]
  · exact List.filter_sublist l

/-- Witness for C8: membership through the query characterization. -/
theorem claimC8_witness :
    mkEntry "A" false ∈
      queryCollection [mkEntry "A" false, mkEntry "B" true]
        (fun e => e.draft == false) :=
  ((claimC8_query.1 _ _).1 _).mpr ⟨List.mem_cons_self _ _, rfl⟩

/-- C9 counterexample: the record with title t, date 2026-01-15 and a
numeric project value is accepted by the earlier blog schema, which ignores
the unknown project key, but rejected by the later schema, which requires
project to be a string when present.  So the later schema does not accept
every record the earlier one accepts. -/
theorem claimC9_counterexample :
    validateBlogV1
        [("title", Value.str "t"), ("date", Value.str "2026-01-15"),
         ("project", Value.num 1)] =
      .ok ⟨"t", none, .str "2026-01-15", [], false⟩ ∧
    validateBlog
        [("title", Value.str "t"), ("date", Value.str "2026-01-15"),
         ("project", Value.num 1)] =
      .error [SchemaError.typeMismatch "project"] :=
  ⟨rfl, rfl⟩

/-- C9 amended: everything the later schema accepts the earlier one accepts
with identical shared fields; and a record the earlier schema accepts is
accepted by the later one provided the added key, project respectively
thumbnail, is absent or bound to a string, in which case the shared fields
normalize identically and the added field carries that string. -/
theorem claimC9_amended :
    (∀ (r : Record) (m : BlogMeta), validateBlog r = .ok m →
      validateBlogV1 r = .ok ⟨m.title, m.description, m.date, m.tags, m.draft⟩) ∧
    (∀ (r : Record) (m1 : BlogMetaV1), validateBlogV1 r = .ok m1 →
      (lookupKey "project" r = none →
        validateBlog r =
          .ok ⟨m1.title, m1.description, m1.date, m1.tags, none, m1.draft⟩) ∧
      (∀ s, lookupKey "project" r = some (Value.str s) →
        validateBlog r =
          .ok ⟨m1.title, m1.description, m1.date, m1.tags, some s, m1.draft⟩)) ∧
    (∀ (r : Record) (m : ProjectMeta), validateProject r = .ok m →
      validateProjectV1 r =
        .ok ⟨m.title, m.description, m.date, m.url, m.repo, m.tags, m.draft⟩) ∧
    (∀ (r : Record) (m1 : ProjectMetaV1), validateProjectV1 r = .ok m1 →
      (lookupKey "thumbnail" r = none →
        validateProject r =
          .ok ⟨m1.title, m1.description, m1.date, m1.url, m1.repo, none,
            m1.tags, m1.draft⟩) ∧
      (∀ s, lookupKey "thumbnail" r = some (Value.str s) →
        validateProject r =
          .ok ⟨m1.title, m1.description, m1.date, m1.url, m1.repo, some s,
            m1.tags, m1.draft⟩)) := by
  refine ⟨?_, ?_, ?_, ?_⟩
  · intro r m hm
    obtain ⟨h1, h2, h3, h4, h5, h6⟩ := (validateBlog_ok_iff r m).mp hm
    exact (validateBlogV1_ok_iff r _).mpr ⟨h1, h2, h3, h4, h6⟩
  · intro r m1 hm
    obtain ⟨h1, h2, h3, h4, h5⟩ := (validateBlogV1_ok_iff r m1).mp hm
    constructor
    · intro hl
      exact (validateBlog_ok_iff r _).mpr
        ⟨h1, h2, h3, h4, by simp [parseOptionalString, hl], h5⟩
    · intro s hl
      exact (validateBlog_ok_iff r _).mpr
        ⟨h1, h2, h3, h4, by simp [parseOptionalString, hl], h5⟩
  · intro r m hm
    obtain ⟨h1, h2, h3, h4, h5, h6, h7, h8⟩ := (validateProject_ok_iff r m).mp hm
    exact (validateProjectV1_ok_iff r _).mpr ⟨h1, h2, h3, h4, h5, h7, h8⟩
  · intro r m1 hm
    obtain ⟨h1, h2, h3, h4, h5, h6, h7⟩ := (validateProjectV1_ok_iff r m1).mp hm
    constructor
    · intro hl
      exact (validateProject_ok_iff r _).mpr
        ⟨h1, h2, h3, h4, h5, by simp [parseOptionalString, hl], h6, h7⟩
    · intro s hl
      exact (validateProject_ok_iff r _).mpr
        ⟨h1, h2, h3, h4, h5, by simp [parseOptionalString, hl], h6, h7⟩

/-- Witness for C9 amended at a concrete record without the added keys. -/
theorem claimC9_witness :
    validateBlog [("title", Value.str "t"), ("date", Value.str "d")] =
      .ok ⟨"t", none, .str "d", [], none, false⟩ :=
  (claimC9_amended.2.1 [("title", Value.str "t"), ("date", Value.str "d")]
    ⟨"t", none, .str "d", [], false⟩ rfl).1 rfl

/-- C10: the normalized output carries only the declared schema fields, so
extra input keys are stripped; and the project and thumbnail fields accept
any string whatsoever. -/
theorem claimC10_stripped :
    (∀ (m : BlogMeta) (k : String), k ∈ recordKeys (blogToRecord m) → k ∈ blogKeys) ∧
    (∀ (m : ProjectMeta) (k : String),
      k ∈ recordKeys (projectToRecord m) → k ∈ projectKeys) ∧
    (∀ (r : Record) (s : String), lookupKey "project" r = some (Value.str s) →
      parseOptionalString "project" r = .ok (some s)) ∧
    (∀ (r : Record) (s : String), lookupKey "thumbnail" r = some (Value.str s) →
      parseOptionalString "thumbnail" r = .ok (some s)) := by
  refine ⟨?_, ?_, ?_, ?_⟩
  · intro m k hk
    obtain ⟨t, de, d, tg, pj, df⟩ := m
    cases de <;> cases pj <;>
      simp_all [blogToRecord, optField, recordKeys, blogKeys] <;> tauto
  · intro m k hk
    obtain ⟨t, de, d, u, rp, th, tg, df⟩ := m
    cases de <;> cases u <;> cases rp <;> cases th <;>
      simp_all [projectToRecord, optField, recordKeys, projectKeys] <;> tauto
  · intro r s h; simp [parseOptionalString, h]
  · intro r s h; simp [parseOptionalString, h]

/-- Witness for C10: the project field accepts an arbitrary string. -/
theorem claimC10_witness :
    parseOptionalString "project" [("project", Value.str "whatever")] =
      .ok (some "whatever") :=
  claimC10_stripped.2.2.1 _ "whatever" rfl

end Andarms
